import Mathlib

set_option maxHeartbeats 1000000
set_option linter.unusedVariables false

namespace GpuGateway

/-- Gateway configuration, mirroring the `Settings` dataclass of `main.py`
(fields `vllm_base_url`, `model`, `max_active`, `queue_mode`, `queue_max`,
`queue_timeout_s`, `request_timeout_s`).  The two timeout fields are carried
for shape only (seconds as naturals); no claim computes with them. -/
structure Settings where
  vllm_base_url : String
  model : String
  max_active : Nat
  queue_mode : String
  queue_max : Nat
  queue_timeout_s : Nat
  request_timeout_s : Nat

/-- The default configuration produced by `load_settings` when no environment
variables are set. -/
def defaultSettings : Settings :=
  ⟨"http://vllm:8000", "qwen25-14b", 2, "queue", 100, 120, 300⟩

/-- Shared admission state: `held` is the number of semaphore slots currently
taken (`max_active` minus the semaphore value), `queue` is the contents of
`wait_queue` oldest-first (tickets are the `time.monotonic()` enqueue stamps,
modelled as naturals), and `depth` is the current value of the `QUEUE_DEPTH`
gauge. -/
structure AdmState where
  held : Nat
  queue : List Nat
  depth : Nat

/-- `asyncio.Queue.full()` for `wait_queue`: a queue constructed with
`maxsize = 0` is unbounded and never reports full; otherwise it is full when
its size has reached `maxsize`. -/
def queueFull (S : Settings) (q : List Nat) : Prop :=
  0 < S.queue_max ∧ S.queue_max ≤ q.length

instance (S : Settings) (q : List Nat) : Decidable (queueFull S q) :=
  inferInstanceAs (Decidable (_ ∧ _))

/-- The filtering loop of `_drain_one`: keep every item except the first one
equal to `wait_start` (the `removed` flag in the source). -/
def removeFirst (ts : Nat) : List Nat → List Nat
  | [] => []
  | x :: xs => if x = ts then xs else x :: removeFirst ts xs

/-- The re-enqueue loop of `_drain_one`: `put_nowait` each kept item back,
stopping (`break`) if the queue reports full. -/
def putBackAll (S : Settings) (acc : List Nat) : List Nat → List Nat
  | [] => acc
  | x :: xs => if queueFull S acc then acc else putBackAll S (acc ++ [x]) xs

/-- `_drain_one(wait_start)`: drain the whole queue with `get_nowait`
(yielding its contents oldest-first), drop the first entry equal to
`wait_start`, and `put_nowait` the remainder back in order. -/
def drain_one (S : Settings) (ts : Nat) (q : List Nat) : List Nat :=
  putBackAll S [] (removeFirst ts q)

/-- The `HTTPError` exception class: HTTP status, message, and Retry-After
hint in seconds (0 meaning no header). -/
structure HTTPError where
  status : Nat
  message : String
  retry_after : Nat

/-- Result of `acquire_slot_or_queue`: `ok none` is the immediate fast path
(the function returns `None`), `ok (some ts)` is the queued-then-admitted
path (the function returns `wait_start`), and `error e` models a raised
`HTTPError`. -/
inductive AcquireResult where
  | ok (wait_start : Option Nat)
  | error (e : HTTPError)

/-- Oracle for the bounded wait at line 117 of `main.py`: either a slot was
obtained within `queue_timeout_s`, or `asyncio.TimeoutError` fired. -/
inductive WaitResult where
  | gotSlot
  | timedOut

/-- `acquire_slot_or_queue`, threaded over the admission state.  The
non-blocking attempt at line 103, `asyncio.wait_for(sema.acquire(),
timeout=0.0)`, always raises `TimeoutError` in CPython: `wait_for` with a
zero timeout wraps the coroutine in a task and cancels it before its first
step, so `sema.acquire()` never runs even when a slot is free.  The
`return None` at line 104 is therefore dead code and control always
reaches the except branch, which this definition models.  `now` is the
`time.monotonic()` stamp used as the caller's ticket; `wait` abstracts the
outcome of the bounded suspension at line 117, whose `sema.acquire()` does
run and succeeds exactly when a slot frees up within `queue_timeout_s`. -/
def acquire_slot_or_queue (S : Settings) (st : AdmState) (now : Nat)
    (wait : WaitResult) : AdmState × AcquireResult :=
  if S.queue_mode = "reject" then
    (st, .error ⟨429, "GPU busy", 2⟩)
  else if queueFull S st.queue then
    (st, .error ⟨429, "Queue full", 5⟩)
  else
    let q1 := st.queue ++ [now]
    match wait with
    | .timedOut =>
        let q2 := drain_one S now q1
        (⟨st.held, q2, q2.length⟩, .error ⟨503, "Queue timeout", 5⟩)
    | .gotSlot =>
        let q2 := drain_one S now q1
        (⟨st.held + 1, q2, q2.length⟩, .ok (some now))

/-- Minimal JSON values, for request bodies and synthesized error payloads
(numbers restricted to integers; no claim involves fractional numbers). -/
inductive Json where
  | null
  | bool (b : Bool)
  | num (n : Int)
  | str (s : String)
  | arr (xs : List Json)
  | obj (fields : List (String × Json))

/-- Python truthiness of a JSON value, as used by `bool(body.get("stream",
False))`. -/
def truthy : Json → Bool
  | .null => false
  | .bool b => b
  | .num n => n ≠ 0
  | .str s => s ≠ ""
  | .arr xs => !xs.isEmpty
  | .obj fs => !fs.isEmpty

/-- Dictionary lookup on a JSON object's field list. -/
def objGet (k : String) (fs : List (String × Json)) : Option Json :=
  (fs.find? (fun p => p.1 = k)).map (fun p => p.2)

/-- Python `s[:500]`: the first 500 characters of a string. -/
def truncate500 (s : String) : String :=
  ⟨s.data.take 500⟩

/-- The one-key error payload used by the unary and transport-failure
paths: an object with field error whose value holds a message string. -/
def errJson1 (m : String) : Json :=
  .obj [("error", .obj [("message", .str m)])]

/-- The two-key error payload of the streamed non-success path: message plus
the backend status code. -/
def errJson2 (m : String) (code : Nat) : Json :=
  .obj [("error", .obj [("message", .str m), ("status", .num (code : Int))])]

/-- One server-sent-events frame as produced by `stream_proxy`: a data frame
carrying a JSON payload, the terminal sentinel frame, or a raw relayed
upstream chunk. -/
inductive Frame where
  | data (payload : Json)
  | done
  | raw (chunk : String)

/-- Observable side effects of the handler, in program order: metric
operations, the semaphore release, and bytes yielded to the caller. -/
inductive Event where
  | observeLatency (endpoint : String)
  | incRequests (endpoint : String) (status : String)
  | incActive
  | decActive
  | semaRelease
  | setQueueDepth
  | emit (f : Frame)

/-- The body of `finalize(status)`: observe latency, count the request with
its final status label, decrement the active gauge, release the semaphore
slot, and refresh the queue-depth gauge. -/
def finalizeEvents (ep status : String) : List Event :=
  [.observeLatency ep, .incRequests ep status, .decActive, .semaRelease,
   .setQueueDepth]

def isEmit : Event → Bool
  | .emit _ => true
  | _ => false

def isSemaRelease : Event → Bool
  | .semaRelease => true
  | _ => false

def isIncRequests : Event → Bool
  | .incRequests _ _ => true
  | _ => false

/-- The frames actually yielded to the caller, extracted from a trace. -/
def emittedFrames (t : List Event) : List Frame :=
  t.filterMap (fun e => match e with | .emit f => some f | _ => none)

/-- Response bodies: a synthesized JSON body or a verbatim passthrough of
backend content with its content type. -/
inductive RespBody where
  | json (j : Json)
  | raw (content : String) (ctype : String)

/-- An HTTP response as constructed by the handler: status code, extra
headers, body. -/
structure HttpResponse where
  status : Nat
  headers : List (String × String)
  body : RespBody

/-- Outcome of the unary backend call: a response (any status) or a raised
transport exception with its text. -/
inductive UnaryOutcome where
  | response (status : Nat) (content : String) (ctype : String)
  | transportError (exText : String)

/-- The unary forwarding branch of `v1_chat_completions` (lines 214-230):
on transport success mirror the backend response and finalize with its
status; on transport failure finalize with 502 and synthesize a truncated
error body. -/
def unaryForward (ep : String) (o : UnaryOutcome) : List Event × HttpResponse :=
  match o with
  | .response st content ctype =>
      (finalizeEvents ep (toString st), ⟨st, [], .raw content ctype⟩)
  | .transportError t =>
      (finalizeEvents ep "502", ⟨502, [], .json (errJson1 (truncate500 t))⟩)

/-- Outcome of the streamed backend call: a transport exception before or at
connection time, or an open response with its status, error body (read only
on non-success), the raw chunks delivered, and an optional mid-stream
transport failure (with its exception text) after those chunks. -/
inductive StreamOutcome where
  | connectError (exText : String)
  | opened (status : Nat) (errBody : String) (chunks : List String)
      (midFail : Option String)

/-- The chunk relay loop: yield each non-empty chunk unmodified. -/
def relayChunks : List String → List Event
  | [] => []
  | c :: cs => if c = "" then relayChunks cs else .emit (.raw c) :: relayChunks cs

/-- `stream_proxy` (lines 232-261): on non-success status, one truncated
error frame then the terminal sentinel, finalizing with the backend status;
on success, relay chunks, handling a mid-stream failure with a synthesized
502 event pair; any transport exception yields the 502 event pair; the
`finally` block always runs `finalize` with `status_for_metrics`. -/
def stream_proxy (ep : String) (o : StreamOutcome) : List Event :=
  match o with
  | .connectError t =>
      [.emit (.data (errJson1 (truncate500 t))), .emit .done] ++
        finalizeEvents ep "502"
  | .opened st errBody chunks midFail =>
      if st = 200 then
        relayChunks chunks ++
          (match midFail with
           | some t =>
               [.emit (.data (errJson1 (truncate500 t))), .emit .done] ++
                 finalizeEvents ep "502"
           | none => finalizeEvents ep "200")
      else
        [.emit (.data (errJson2 (truncate500 errBody) st)), .emit .done] ++
          finalizeEvents ep (toString st)

/-- Outcome of the backend call made by the `/v1/models` passthrough. -/
inductive ModelsOutcome where
  | response (status : Nat) (content : String) (ctype : String)
  | transportError (exText : String)

/-- The `/v1/models` handler (lines 157-168): passthrough on success, 502
with a truncated error body on transport failure. -/
def v1_models (o : ModelsOutcome) : HttpResponse :=
  match o with
  | .response st content ctype => ⟨st, [], .raw content ctype⟩
  | .transportError t => ⟨502, [], .json (errJson1 (truncate500 t))⟩

/-- Result of `await request.json()`: a parse failure or a parsed JSON
value (which need not be an object). -/
inductive ParseResult where
  | malformed
  | parsed (v : Json)

/-- The `except HTTPError` branch of the handler (lines 189-194): JSON error
body from the message; a Retry-After header exactly when the hint is
nonzero. -/
def rejectionResponse (e : HTTPError) : HttpResponse :=
  ⟨e.status,
   if e.retry_after = 0 then [] else [("Retry-After", toString e.retry_after)],
   .json (errJson1 e.message)⟩

def endpointCC : String := "/v1/chat/completions"

/-- Result of one request to `POST /v1/chat/completions`: a plain response,
a streaming response whose frames are listed, or an exception that escapes
the handler (the framework then answers 500 with no metrics recorded). -/
inductive HandlerResult where
  | response (r : HttpResponse)
  | streaming (frames : List Frame)
  | unhandledError

/-- `v1_chat_completions` (lines 171-263), threaded over the admission
state, with the backend abstracted by the `uo`/`so` oracles.  A valid-JSON
body that is not an object makes the model-defaulting line raise an
uncaught error.  For admitted requests the returned state reflects the
`finalize` performed by the forwarding branch (slot released, queue-depth
gauge refreshed); the forwarded body itself is not modelled because the
backend is an oracle. -/
def v1_chat_completions (S : Settings) (st : AdmState) (pr : ParseResult)
    (now : Nat) (wait : WaitResult) (uo : UnaryOutcome) (so : StreamOutcome) :
    List Event × HandlerResult × AdmState :=
  match pr with
  | .malformed =>
      ([.incRequests endpointCC "400"],
       .response ⟨400, [], .json (errJson1 "invalid_json")⟩, st)
  | .parsed (Json.obj fs) =>
      match acquire_slot_or_queue S st now wait with
      | (st1, .error e) =>
          ([.incRequests endpointCC (toString e.status)],
           .response (rejectionResponse e), st1)
      | (st1, .ok _) =>
          if truthy ((objGet "stream" fs).getD (Json.bool false)) then
            let tr := stream_proxy endpointCC so
            ([.incActive, .setQueueDepth] ++ tr,
             .streaming (emittedFrames tr),
             ⟨st1.held - 1, st1.queue, st1.queue.length⟩)
          else
            ([.incActive, .setQueueDepth] ++ (unaryForward endpointCC uo).1,
             .response (unaryForward endpointCC uo).2,
             ⟨st1.held - 1, st1.queue, st1.queue.length⟩)
  | .parsed _ => ([], .unhandledError, st)

/-- Atomic mutations of the shared admission state, as performed between
suspension points of the single event loop: a successful semaphore
acquisition (a waiter waking within its timeout), an enqueue after the
full check passed in queue mode (slot availability is irrelevant, since
the non-blocking attempt always fails), a `_drain_one` removal followed by
the gauge refresh, a bare gauge refresh, and the release performed by
`finalize` (which only ever runs while a lease from a prior successful
acquire is held). -/
inductive Step (S : Settings) : AdmState → AdmState → Prop where
  | acquire (s : AdmState) :
      s.held < S.max_active → Step S s ⟨s.held + 1, s.queue, s.depth⟩
  | enqueue (s : AdmState) (ts : Nat) :
      S.queue_mode ≠ "reject" → ¬ queueFull S s.queue →
      Step S s ⟨s.held, s.queue ++ [ts], (s.queue ++ [ts]).length⟩
  | drain (s : AdmState) (ts : Nat) :
      Step S s ⟨s.held, drain_one S ts s.queue, (drain_one S ts s.queue).length⟩
  | setDepth (s : AdmState) :
      Step S s ⟨s.held, s.queue, s.queue.length⟩
  | release (s : AdmState) :
      0 < s.held → Step S s ⟨s.held - 1, s.queue, s.depth⟩

/-- States reachable from process start (empty queue, all slots free,
gauges at zero). -/
inductive Reachable (S : Settings) : AdmState → Prop where
  | init : Reachable S ⟨0, [], 0⟩
  | step {s t : AdmState} : Reachable S s → Step S s t → Reachable S t

/-- The final status label the specification assigns to each handler path
(400 for malformed JSON, the `HTTPError` status for admission rejection,
the forwarding outcome's status category otherwise; none for the
unhandled-error path), used to state the counter-labelling claim. -/
def forwardLabel (stream : Bool) (uo : UnaryOutcome) (so : StreamOutcome) :
    String :=
  if stream then
    match so with
    | .connectError _ => "502"
    | .opened st _ _ midFail =>
        if st = 200 then
          match midFail with
          | some _ => "502"
          | none => "200"
        else toString st
  else
    match uo with
    | .response st _ _ => toString st
    | .transportError _ => "502"

/-- Expected final status of one request path, per the specification's
description of the paths (see `forwardLabel`). -/
def expectedStatusLabel (S : Settings) (st : AdmState) (pr : ParseResult)
    (now : Nat) (wait : WaitResult) (uo : UnaryOutcome) (so : StreamOutcome) :
    Option String :=
  match pr with
  | .malformed => some "400"
  | .parsed (Json.obj fs) =>
      match (acquire_slot_or_queue S st now wait).2 with
      | .error e => some (toString e.status)
      | .ok _ =>
          some (forwardLabel (truthy ((objGet "stream" fs).getD (Json.bool false)))
            uo so)
  | .parsed _ => none

/-- Removing the first match never lengthens the list. -/
lemma length_removeFirst_le (ts : Nat) (q : List Nat) :
    (removeFirst ts q).length ≤ q.length := by
  induction q with
  | nil => simp [removeFirst]
  | cons x xs ih =>
      by_cases hx : x = ts
      · simp [removeFirst, hx]
      · simp only [removeFirst, hx, ite_false, List.length_cons]
        omega

/-- If the target value does not occur, the filtering pass keeps everything. -/
lemma removeFirst_of_not_mem {ts : Nat} {q : List Nat} (h : ts ∉ q) :
    removeFirst ts q = q := by
  induction q with
  | nil => rfl
  | cons x xs ih =>
      have hx : x ≠ ts := fun hxe => h (hxe ▸ List.mem_cons_self x xs)
      have hxs : ts ∉ xs := fun hm => h (List.mem_cons_of_mem x hm)
      simp [removeFirst, hx, ih hxs]

/-- Removing a freshly appended ticket restores the original queue when the
ticket value was not already present. -/
lemma removeFirst_append_singleton {ts : Nat} {q : List Nat} (h : ts ∉ q) :
    removeFirst ts (q ++ [ts]) = q := by
  induction q with
  | nil => simp [removeFirst]
  | cons x xs ih =>
      have hx : x ≠ ts := fun hxe => h (hxe ▸ List.mem_cons_self x xs)
      have hxs : ts ∉ xs := fun hm => h (List.mem_cons_of_mem x hm)
      simp [removeFirst, hx, ih hxs]

/-- If the target occurs, the filtering pass drops exactly its first
occurrence and preserves the rest in order. -/
lemma removeFirst_of_mem {ts : Nat} {q : List Nat} (h : ts ∈ q) :
    ∃ l r, q = l ++ ts :: r ∧ ts ∉ l ∧ removeFirst ts q = l ++ r := by
  induction q with
  | nil => cases h
  | cons x xs ih =>
      by_cases hx : x = ts
      · refine ⟨[], xs, ?_, ?_, ?_⟩ <;> simp [hx, removeFirst]
      · have hm : ts ∈ xs := by
          rcases List.mem_cons.mp h with h1 | h1
          · exact absurd h1.symm hx
          · exact h1
        obtain ⟨l, r, hq, hnl, hrm⟩ := ih hm
        refine ⟨x :: l, r, ?_, ?_, ?_⟩
        · simp [hq]
        · intro hc
          rcases List.mem_cons.mp hc with h1 | h1
          · exact hx h1.symm
          · exact hnl h1
        · simp [removeFirst, hx, hrm]

/-- The re-enqueue loop, started from a state with enough room for all kept
items, re-inserts all of them (the `break` branch never fires). -/
lemma putBackAll_eq (S : Settings) (xs : List Nat) :
    ∀ acc : List Nat,
      (S.queue_max = 0 ∨ acc.length + xs.length ≤ S.queue_max) →
      putBackAll S acc xs = acc ++ xs := by
  induction xs with
  | nil => intro acc _; simp [putBackAll]
  | cons x xs ih =>
      intro acc h
      have hnf : ¬ queueFull S acc := by
        rcases h with h0 | hle
        · intro hf
          have := hf.1
          omega
        · intro hf
          have h2 := hf.2
          simp only [List.length_cons] at hle
          omega
      have hrec : S.queue_max = 0 ∨ (acc ++ [x]).length + xs.length ≤ S.queue_max := by
        rcases h with h0 | hle
        · exact Or.inl h0
        · right
          simp only [List.length_append, List.length_cons, List.length_nil] at hle ⊢
          omega
      simp [putBackAll, hnf, ih (acc ++ [x]) hrec]

/-- The re-enqueue loop never produces more than it was given. -/
lemma putBackAll_length_le (S : Settings) (xs : List Nat) :
    ∀ acc : List Nat, (putBackAll S acc xs).length ≤ acc.length + xs.length := by
  induction xs with
  | nil => intro acc; simp [putBackAll]
  | cons x xs ih =>
      intro acc
      by_cases hf : queueFull S acc
      · simp [putBackAll, hf]
      · simp only [putBackAll, hf, if_neg, ite_false]
        have := ih (acc ++ [x])
        simp at this ⊢
        omega

/-- On any queue within capacity, `_drain_one` is exactly first-match
removal. -/
lemma drain_one_eq_removeFirst (S : Settings) (ts : Nat) (q : List Nat)
    (hfit : S.queue_max = 0 ∨ q.length ≤ S.queue_max) :
    drain_one S ts q = removeFirst ts q := by
  unfold drain_one
  have h := putBackAll_eq S (removeFirst ts q) []
  rcases hfit with h0 | hle
  · simpa using h (Or.inl h0)
  · have : (([] : List Nat)).length + (removeFirst ts q).length ≤ S.queue_max := by
      have := length_removeFirst_le ts q
      simp
      omega
    simpa using h (Or.inr this)

/-- `_drain_one` never lengthens the queue. -/
lemma length_drain_one_le (S : Settings) (ts : Nat) (q : List Nat) :
    (drain_one S ts q).length ≤ q.length := by
  unfold drain_one
  have h1 := putBackAll_length_le S (removeFirst ts q) []
  have h2 := length_removeFirst_le ts q
  simp at h1
  omega

/-- Relayed chunks are pure emissions. -/
lemma relayChunks_all_isEmit (cs : List String) :
    (relayChunks cs).all isEmit = true := by
  induction cs with
  | nil => rfl
  | cons c cs ih =>
      by_cases hc : c = "" <;> simp [relayChunks, hc, isEmit, ih]

/-- Relaying chunks releases no semaphore slot. -/
lemma relayChunks_filter_semaRelease (cs : List String) :
    (relayChunks cs).filter isSemaRelease = [] := by
  induction cs with
  | nil => rfl
  | cons c cs ih =>
      by_cases hc : c = "" <;> simp [relayChunks, hc, isSemaRelease, ih]

/-- Relaying chunks increments no request counter. -/
lemma relayChunks_filter_incRequests (cs : List String) :
    (relayChunks cs).filter isIncRequests = [] := by
  induction cs with
  | nil => rfl
  | cons c cs ih =>
      by_cases hc : c = "" <;> simp [relayChunks, hc, isIncRequests, ih]

/-- Claim C2: in every reachable state of the admission controller the
number of concurrently held slots is at most `maxActive`: slots are granted
only through the semaphore initialized to `max_active`, and each grant is
paired with at most one release. -/
theorem claim_C2_held_le_maxActive (S : Settings) (s : AdmState)
    (h : Reachable S s) : s.held ≤ S.max_active := by
  induction h with
  | init => exact Nat.zero_le _
  | step _ hstep ih =>
      cases hstep with
      | acquire hlt => exact hlt
      | enqueue ts h2 h3 => exact ih
      | drain ts => exact ih
      | setDepth => exact ih
      | release hpos =>
          dsimp only at ih ⊢
          omega

theorem claim_C2_witness :
    (⟨1, [], 0⟩ : AdmState).held ≤ defaultSettings.max_active :=
  claim_C2_held_le_maxActive defaultSettings ⟨1, [], 0⟩
    (Reachable.step Reachable.init (Step.acquire ⟨0, [], 0⟩ (by decide)))

/-- A configuration with `queueMax = 0`: `asyncio.Queue(maxsize=0)` is
unbounded, so the full check at line 109 never fires. -/
def zeroQueueSettings : Settings :=
  ⟨"http://vllm:8000", "qwen25-14b", 1, "queue", 0, 120, 300⟩

/-- Counterexample to claim C3 as stated: with the recognized configuration
`queueMax = 0` the wait queue is the unbounded `asyncio.Queue(maxsize=0)`;
one caller holding the slot and a second caller enqueueing reaches a state
whose wait-queue size exceeds `queueMax`. -/
theorem claim_C3_counterexample :
    Reachable zeroQueueSettings ⟨1, [7], 1⟩ ∧
      ¬ ((⟨1, [7], 1⟩ : AdmState).queue.length ≤ zeroQueueSettings.queue_max) := by
  constructor
  · exact Reachable.step
      (Reachable.step Reachable.init (Step.acquire ⟨0, [], 0⟩ (by decide)))
      (Step.enqueue ⟨1, [], 0⟩ 7 (by decide) (by decide))
  · decide

/-- Claim C3 (amended): for every configured `queueMax ≥ 1`, in every
reachable state the wait-queue size is at most `queueMax`, because a caller
is enqueued only after the queue-full check fails; with `queueMax = 0` the
underlying queue is unbounded and the bound can be exceeded. -/
theorem claim_C3_queue_le_queueMax (S : Settings) (s : AdmState)
    (hpos : 1 ≤ S.queue_max) (h : Reachable S s) :
    s.queue.length ≤ S.queue_max := by
  induction h with
  | init => exact Nat.zero_le _
  | step _ hstep ih =>
      cases hstep with
      | acquire hlt => exact ih
      | enqueue ts h2 h3 =>
          simp only [queueFull, not_and, not_le] at h3
          have := h3 (by omega)
          dsimp only
          simp only [List.length_append, List.length_cons, List.length_nil]
          omega
      | drain ts =>
          dsimp only
          exact le_trans (length_drain_one_le _ _ _) ih
      | setDepth => exact ih
      | release hpos2 => exact ih

theorem claim_C3_witness :
    (⟨2, [7], 1⟩ : AdmState).queue.length ≤ defaultSettings.queue_max :=
  claim_C3_queue_le_queueMax defaultSettings ⟨2, [7], 1⟩ (by decide)
    (Reachable.step
      (Reachable.step
        (Reachable.step Reachable.init (Step.acquire ⟨0, [], 0⟩ (by decide)))
        (Step.acquire ⟨1, [], 0⟩ (by decide)))
      (Step.enqueue ⟨2, [], 0⟩ 7 (by decide) (by decide)))

/-- A configuration running in reject mode. -/
def rejectSettings : Settings :=
  ⟨"http://vllm:8000", "qwen25-14b", 1, "reject", 100, 120, 300⟩

/-- Claim C4 (code bug in the program): the claim and the spec say a free
slot yields a lease at once through the non-blocking attempt with no
suspension and no ticket, but `asyncio.wait_for(sema.acquire(),
timeout=0.0)` at line 103 cancels the acquire task before its first step
and always raises `TimeoutError`, making the immediate-return path dead
code.  Evaluated at a state whose slot is free: a reject-mode request is
rejected 429 GPU busy instead of admitted, and a queue-mode request goes
through the wait queue and returns its ticket (the Queued-then-Admitted
decision, `ok (some now)`), not the Immediate decision (`ok none`). -/
theorem claim_C4_dead_fast_path :
    ((⟨0, [], 0⟩ : AdmState).held < rejectSettings.max_active ∧
      acquire_slot_or_queue rejectSettings ⟨0, [], 0⟩ 3 .gotSlot =
        (⟨0, [], 0⟩, .error ⟨429, "GPU busy", 2⟩)) ∧
    ((⟨0, [], 0⟩ : AdmState).held < defaultSettings.max_active ∧
      acquire_slot_or_queue defaultSettings ⟨0, [], 0⟩ 3 .gotSlot =
        (⟨1, [], 0⟩, .ok (some 3))) :=
  ⟨⟨by decide, rfl⟩, ⟨by decide, rfl⟩⟩

/-- Claim C5: with no free slot and `queueMode = reject`, the request is
answered immediately with HTTP 429, error message GPU busy, and header
Retry-After 2, and the admission state — in particular the wait queue — is
returned unchanged. -/
theorem claim_C5_reject (S : Settings) (st : AdmState)
    (fs : List (String × Json)) (now : Nat) (wait : WaitResult)
    (uo : UnaryOutcome) (so : StreamOutcome)
    (h1 : ¬ st.held < S.max_active) (h2 : S.queue_mode = "reject") :
    v1_chat_completions S st (.parsed (.obj fs)) now wait uo so =
      ([.incRequests endpointCC "429"],
       .response ⟨429, [("Retry-After", "2")], .json (errJson1 "GPU busy")⟩,
       st) := by
  have ha : acquire_slot_or_queue S st now wait =
      (st, .error ⟨429, "GPU busy", 2⟩) := by
    simp [acquire_slot_or_queue, h1, h2]
  simp [v1_chat_completions, ha, rejectionResponse]
  exact ⟨rfl, rfl⟩

theorem claim_C5_witness :
    v1_chat_completions rejectSettings ⟨1, [], 0⟩ (.parsed (.obj [])) 0
        .gotSlot (.response 200 "x" "application/json")
        (.opened 200 "" [] none) =
      ([.incRequests endpointCC "429"],
       .response ⟨429, [("Retry-After", "2")], .json (errJson1 "GPU busy")⟩,
       ⟨1, [], 0⟩) :=
  claim_C5_reject rejectSettings ⟨1, [], 0⟩ [] 0 .gotSlot
    (.response 200 "x" "application/json") (.opened 200 "" [] none)
    (by decide) rfl

/-- Claim C6: when a queued caller's wait times out, its own ticket is
removed from the wait queue (restoring the pre-enqueue contents when the
ticket value was fresh), the queue-depth gauge is set to the resulting
size, the caller receives HTTP 503 with message Queue timeout and header
Retry-After 5, and the caller holds no slot afterwards (the held count is
unchanged). -/
theorem claim_C6_queue_timeout (S : Settings) (st : AdmState)
    (fs : List (String × Json)) (now : Nat) (uo : UnaryOutcome)
    (so : StreamOutcome) (h1 : ¬ st.held < S.max_active)
    (h2 : S.queue_mode ≠ "reject") (h3 : ¬ queueFull S st.queue)
    (h4 : now ∉ st.queue) :
    v1_chat_completions S st (.parsed (.obj fs)) now .timedOut uo so =
      ([.incRequests endpointCC "503"],
       .response ⟨503, [("Retry-After", "5")], .json (errJson1 "Queue timeout")⟩,
       ⟨st.held, st.queue, st.queue.length⟩) := by
  have hfit : S.queue_max = 0 ∨ (st.queue ++ [now]).length ≤ S.queue_max := by
    rcases Nat.eq_zero_or_pos S.queue_max with h0 | hq
    · exact Or.inl h0
    · right
      simp only [queueFull, not_and, not_le] at h3
      have := h3 hq
      simp only [List.length_append, List.length_cons, List.length_nil]
      omega
  have hq2 : drain_one S now (st.queue ++ [now]) = st.queue := by
    rw [drain_one_eq_removeFirst S now _ hfit, removeFirst_append_singleton h4]
  have ha : acquire_slot_or_queue S st now .timedOut =
      (⟨st.held, st.queue, st.queue.length⟩, .error ⟨503, "Queue timeout", 5⟩) := by
    simp [acquire_slot_or_queue, h1, h2, h3, hq2]
  simp [v1_chat_completions, ha, rejectionResponse]
  exact ⟨rfl, rfl⟩

theorem claim_C6_witness :
    v1_chat_completions defaultSettings ⟨2, [], 0⟩ (.parsed (.obj [])) 9
        .timedOut (.response 200 "x" "application/json")
        (.opened 200 "" [] none) =
      ([.incRequests endpointCC "503"],
       .response ⟨503, [("Retry-After", "5")], .json (errJson1 "Queue timeout")⟩,
       ⟨2, [], 0⟩) :=
  claim_C6_queue_timeout defaultSettings ⟨2, [], 0⟩ [] 9
    (.response 200 "x" "application/json") (.opened 200 "" [] none)
    (by decide) (by decide) (by decide) (by decide)

/-- Claim C7: on every queue contents within the queue's capacity and every
timestamp, `_drain_one` removes exactly the first occurrence equal to the
caller's enqueue timestamp and keeps all other entries in their original
relative order; if no entry matches, the contents are unchanged. -/
theorem claim_C7_drain_one_first_match (S : Settings) (ts : Nat)
    (q : List Nat) (hfit : S.queue_max = 0 ∨ q.length ≤ S.queue_max) :
    (ts ∉ q → drain_one S ts q = q) ∧
    (ts ∈ q → ∃ l r, q = l ++ ts :: r ∧ ts ∉ l ∧
      drain_one S ts q = l ++ r) := by
  have hd := drain_one_eq_removeFirst S ts q hfit
  constructor
  · intro h
    rw [hd, removeFirst_of_not_mem h]
  · intro h
    obtain ⟨l, r, hq, hnl, hrm⟩ := removeFirst_of_mem h
    exact ⟨l, r, hq, hnl, hd.trans hrm⟩

theorem claim_C7_witness :
    (2 ∉ [1, 2, 3] → drain_one defaultSettings 2 [1, 2, 3] = [1, 2, 3]) ∧
    (2 ∈ [1, 2, 3] → ∃ l r, [1, 2, 3] = l ++ 2 :: r ∧ 2 ∉ l ∧
      drain_one defaultSettings 2 [1, 2, 3] = l ++ r) :=
  claim_C7_drain_one_first_match defaultSettings 2 [1, 2, 3] (by decide)

/-- Claim C1: for every request whose slot acquisition succeeds, the
finalize sequence (latency observation, request-counter increment, active
gauge decrement, semaphore release, queue-depth refresh) runs exactly once
on every exit path — unary success, unary transport failure, streamed
backend error status, mid-stream transport failure, and clean
end-of-stream: the trace is the admission prefix, then only frame
emissions, then exactly one finalize block. -/
theorem claim_C1_finalize_once (S : Settings) (st : AdmState)
    (fs : List (String × Json)) (now : Nat) (wait : WaitResult)
    (uo : UnaryOutcome) (so : StreamOutcome) (w : Option Nat)
    (h : (acquire_slot_or_queue S st now wait).2 = .ok w) :
    ∃ s pre,
      (v1_chat_completions S st (.parsed (.obj fs)) now wait uo so).1 =
        [.incActive, .setQueueDepth] ++ pre ++ finalizeEvents endpointCC s ∧
      pre.all isEmit = true ∧
      ((v1_chat_completions S st (.parsed (.obj fs)) now wait uo so).1.filter
        isSemaRelease).length = 1 := by
  rcases ha : acquire_slot_or_queue S st now wait with ⟨st1, r⟩
  rw [ha] at h
  dsimp only at h
  subst h
  by_cases hs : truthy ((objGet "stream" fs).getD (Json.bool false))
  · cases so with
    | connectError t =>
        refine ⟨"502", [.emit (.data (errJson1 (truncate500 t))), .emit .done],
          ?_, ?_, ?_⟩ <;>
          simp [v1_chat_completions, ha, hs, stream_proxy, finalizeEvents,
            isEmit, isSemaRelease]
    | opened stc eb cs mf =>
        by_cases h200 : stc = 200
        · cases mf with
          | none =>
              refine ⟨"200", relayChunks cs, ?_, ?_, ?_⟩ <;>
                simp [v1_chat_completions, ha, hs, stream_proxy, h200,
                  finalizeEvents, isSemaRelease, List.filter_append,
                  relayChunks_filter_semaRelease, relayChunks_all_isEmit]
          | some t =>
              refine ⟨"502",
                relayChunks cs ++
                  [.emit (.data (errJson1 (truncate500 t))), .emit .done],
                ?_, ?_, ?_⟩ <;>
                simp [v1_chat_completions, ha, hs, stream_proxy, h200,
                  finalizeEvents, isEmit, isSemaRelease, List.filter_append,
                  relayChunks_filter_semaRelease, relayChunks_all_isEmit]
        · refine ⟨toString stc,
            [.emit (.data (errJson2 (truncate500 eb) stc)), .emit .done],
            ?_, ?_, ?_⟩ <;>
            simp [v1_chat_completions, ha, hs, stream_proxy, h200,
              finalizeEvents, isEmit, isSemaRelease]
  · cases uo with
    | response stc content ctype =>
        refine ⟨toString stc, [], ?_, ?_, ?_⟩ <;>
          simp [v1_chat_completions, ha, hs, unaryForward, finalizeEvents,
            isSemaRelease]
    | transportError t =>
        refine ⟨"502", [], ?_, ?_, ?_⟩ <;>
          simp [v1_chat_completions, ha, hs, unaryForward, finalizeEvents,
            isSemaRelease]

theorem claim_C1_witness :
    ∃ s pre,
      (v1_chat_completions defaultSettings ⟨0, [], 0⟩ (.parsed (.obj [])) 0
          .gotSlot (.response 200 "x" "application/json")
          (.opened 200 "" [] none)).1 =
        [.incActive, .setQueueDepth] ++ pre ++ finalizeEvents endpointCC s ∧
      pre.all isEmit = true ∧
      ((v1_chat_completions defaultSettings ⟨0, [], 0⟩ (.parsed (.obj [])) 0
          .gotSlot (.response 200 "x" "application/json")
          (.opened 200 "" [] none)).1.filter isSemaRelease).length = 1 :=
  claim_C1_finalize_once defaultSettings ⟨0, [], 0⟩ [] 0 .gotSlot
    (.response 200 "x" "application/json") (.opened 200 "" [] none) (some 0)
    rfl

/-- Claim C8: every synthesized error payload — the unary 502 body, the
`/v1/models` 502 body, the streamed error event for a non-success backend
status, and the streamed 502 events on connect or mid-stream transport
failure — embeds the upstream error text through `truncate500`, whose
output never exceeds 500 characters. -/
theorem claim_C8_bounded_error_text :
    (∀ s : String, (truncate500 s).length ≤ 500) ∧
    (∀ ep t, (unaryForward ep (.transportError t)).2 =
      ⟨502, [], .json (errJson1 (truncate500 t))⟩) ∧
    (∀ t, v1_models (.transportError t) =
      ⟨502, [], .json (errJson1 (truncate500 t))⟩) ∧
    (∀ ep stc eb cs mf, stc ≠ 200 → stream_proxy ep (.opened stc eb cs mf) =
      [.emit (.data (errJson2 (truncate500 eb) stc)), .emit .done] ++
        finalizeEvents ep (toString stc)) ∧
    (∀ ep t, stream_proxy ep (.connectError t) =
      [.emit (.data (errJson1 (truncate500 t))), .emit .done] ++
        finalizeEvents ep "502") ∧
    (∀ ep eb cs t, stream_proxy ep (.opened 200 eb cs (some t)) =
      relayChunks cs ++
        [.emit (.data (errJson1 (truncate500 t))), .emit .done] ++
        finalizeEvents ep "502") := by
  refine ⟨?_, ?_, ?_, ?_, ?_, ?_⟩
  · intro s
    have h : (truncate500 s).length = (s.data.take 500).length := rfl
    rw [h, List.length_take]
    exact Nat.min_le_left _ _
  · intro ep t; rfl
  · intro t; rfl
  · intro ep stc eb cs mf h
    simp [stream_proxy, h]
  · intro ep t; rfl
  · intro ep eb cs t
    simp [stream_proxy]

theorem claim_C8_witness :
    stream_proxy "/v1/chat/completions" (.opened 500 "boom" [] none) =
      [.emit (.data (errJson2 (truncate500 "boom") 500)), .emit .done] ++
        finalizeEvents "/v1/chat/completions" (toString 500) :=
  claim_C8_bounded_error_text.2.2.2.1 "/v1/chat/completions" 500 "boom" []
    none (by decide)

/-- Claim C9: in streaming mode with a non-success backend status the
caller receives exactly one data frame carrying the truncated body text and
the status code, followed by exactly one terminal sentinel frame, no
upstream body bytes, and finalize runs with that backend status as the
metrics label. -/
theorem claim_C9_stream_error_frames (ep eb : String) (stc : Nat)
    (cs : List String) (mf : Option String) (h : stc ≠ 200) :
    stream_proxy ep (.opened stc eb cs mf) =
      [.emit (.data (errJson2 (truncate500 eb) stc)), .emit .done] ++
        finalizeEvents ep (toString stc) ∧
    emittedFrames (stream_proxy ep (.opened stc eb cs mf)) =
      [.data (errJson2 (truncate500 eb) stc), .done] := by
  constructor <;> simp [stream_proxy, h, emittedFrames, finalizeEvents]

theorem claim_C9_witness :
    stream_proxy "/v1/chat/completions" (.opened 500 "err" ["x"] none) =
      [.emit (.data (errJson2 (truncate500 "err") 500)), .emit .done] ++
        finalizeEvents "/v1/chat/completions" (toString 500) ∧
    emittedFrames (stream_proxy "/v1/chat/completions"
        (.opened 500 "err" ["x"] none)) =
      [.data (errJson2 (truncate500 "err") 500), .done] :=
  claim_C9_stream_error_frames "/v1/chat/completions" "err" 500 ["x"] none
    (by decide)

/-- Counterexample to claim C10 as stated: a request whose body is valid
JSON but not an object (here the JSON number 5) passes the parse guard,
then the model-defaulting assignment raises an uncaught error, so the
request-count counter is never incremented on that path. -/
theorem claim_C10_counterexample :
    ((v1_chat_completions defaultSettings ⟨0, [], 0⟩ (.parsed (.num 5)) 0
        .gotSlot (.response 200 "x" "application/json")
        (.opened 200 "" [] none)).1.filter isIncRequests).length = 0 ∧
    (v1_chat_completions defaultSettings ⟨0, [], 0⟩ (.parsed (.num 5)) 0
        .gotSlot (.response 200 "x" "application/json")
        (.opened 200 "" [] none)).2.1 = .unhandledError :=
  ⟨rfl, rfl⟩

/-- Claim C10 (amended): every request whose body is malformed JSON or
parses to a JSON object increments the request-count counter exactly once,
labeled with the final status of its path — including the 400
malformed-JSON path and the 429/503 admission-rejection paths that never
reach the backend; a valid-JSON non-object body instead escapes the handler
with no increment. -/
theorem claim_C10_counter_once (S : Settings) (st : AdmState)
    (pr : ParseResult) (now : Nat) (wait : WaitResult) (uo : UnaryOutcome)
    (so : StreamOutcome) (l : String)
    (h : expectedStatusLabel S st pr now wait uo so = some l) :
    ((v1_chat_completions S st pr now wait uo so).1.filter isIncRequests) =
      [.incRequests endpointCC l] := by
  cases pr with
  | malformed =>
      simp [expectedStatusLabel] at h
      subst h
      simp [v1_chat_completions, isIncRequests]
  | parsed v =>
      cases v with
      | null => simp [expectedStatusLabel] at h
      | bool b => simp [expectedStatusLabel] at h
      | num n => simp [expectedStatusLabel] at h
      | str s => simp [expectedStatusLabel] at h
      | arr xs => simp [expectedStatusLabel] at h
      | obj fs =>
          rcases ha : acquire_slot_or_queue S st now wait with ⟨st1, r⟩
          cases r with
          | error e =>
              simp [expectedStatusLabel, ha] at h
              subst h
              simp [v1_chat_completions, ha, isIncRequests]
          | ok w =>
              simp [expectedStatusLabel, ha] at h
              cases hs : truthy ((objGet "stream" fs).getD (Json.bool false)) with
              | true =>
                  rw [hs] at h
                  simp [forwardLabel] at h
                  cases so with
                  | connectError t =>
                      subst h
                      simp [v1_chat_completions, ha, hs, stream_proxy,
                        finalizeEvents, isIncRequests]
                  | opened stc eb cs mf =>
                      by_cases h200 : stc = 200
                      · cases mf with
                        | none =>
                            simp [h200] at h
                            subst h
                            simp [v1_chat_completions, ha, hs, stream_proxy,
                              h200, finalizeEvents, isIncRequests,
                              List.filter_append,
                              relayChunks_filter_incRequests]
                        | some t =>
                            simp [h200] at h
                            subst h
                            simp [v1_chat_completions, ha, hs, stream_proxy,
                              h200, finalizeEvents, isIncRequests,
                              List.filter_append,
                              relayChunks_filter_incRequests]
                      · simp [h200] at h
                        subst h
                        simp [v1_chat_completions, ha, hs, stream_proxy, h200,
                          finalizeEvents, isIncRequests]
              | false =>
                  rw [hs] at h
                  simp [forwardLabel] at h
                  cases uo with
                  | response stc content ctype =>
                      simp at h
                      subst h
                      simp [v1_chat_completions, ha, hs, unaryForward,
                        finalizeEvents, isIncRequests]
                  | transportError t =>
                      simp at h
                      subst h
                      simp [v1_chat_completions, ha, hs, unaryForward,
                        finalizeEvents, isIncRequests]

theorem claim_C10_witness :
    ((v1_chat_completions defaultSettings ⟨0, [], 0⟩ .malformed 0 .gotSlot
        (.response 200 "x" "application/json")
        (.opened 200 "" [] none)).1.filter isIncRequests) =
      [.incRequests endpointCC "400"] :=
  claim_C10_counter_once defaultSettings ⟨0, [], 0⟩ .malformed 0 .gotSlot
    (.response 200 "x" "application/json") (.opened 200 "" [] none) "400" rfl

end GpuGateway
